import Mathlib

/-
Verification development for pixelcities/libsignal-protocol-wasm.

Shallow embedding of the two core source files:
  * src/keystore.rs  — the KeyStore (password-derived root key, encrypted
    key records, rotation);
  * src/protocol.rs  — the Protocol object (store-handle checkout for
    mutating calls, decrypt dispatch, debounced sync, pre-key bundles).

External capabilities (the argon2 crate, the AEAD in crate::crypto, the
base64 crate, and libsignal message parsing / ratchet decryption) are
modelled as deterministic symbolic functions that honour their documented
contracts; everything written in the repository itself is translated
structurally from the source.
-/

/-! ## Byte-level helpers -/

/-- Bytes of a string, as the Rust source's `as_bytes` view (we keep code
points; all concrete inputs used below are ASCII, where this agrees). -/
def strBytes (s : String) : List Nat := s.toList.map Char.toNat

/-- Length of the unpadded base64 encoding of `n` bytes. -/
def b64Len (n : Nat) : Nat := (4 * n + 2) / 3

/-- Minimum accepted salt length (in base64 characters) of the
`password_hash` crate's `Salt`. -/
def saltMinLen : Nat := 4

/-- Maximum accepted salt length (in base64 characters) of the
`password_hash` crate's `Salt` / `SaltString`. -/
def saltMaxLen : Nat := 64

/-- Model of `SaltString::b64_encode` followed by its use as a salt in
`hash_password` (keystore.rs lines 333 and 343): the construction succeeds
exactly when the base64 form of the input fits the accepted salt length
range, and the effective salt bytes are the input bytes themselves (the
base64 form is decoded back before hashing). `none` models the `Err` that
the source immediately `unwrap`s, i.e. a panic. -/
def saltB64Encode (bs : List Nat) : Option (List Nat) :=
  if saltMinLen ≤ b64Len bs.length ∧ b64Len bs.length ≤ saltMaxLen then some bs else none

def u32Mod : Nat := 4294967296

/-- One mixing step of the symbolic hash model. -/
def mixStep (a b : Nat) : Nat := (a * 31 + b + 7) % u32Mod

/-- Deterministic symbolic model of the external Argon2id primitive
(`argon2` crate): a pure function of the cost parameters, the salt and the
input, producing `outLen` bytes. Argon2 itself is deterministic, which is
all the development relies on. -/
def argon2Hash (mCost tCost pCost outLen : Nat) (salt input : List Nat) : List Nat :=
  let seed := ((mCost :: tCost :: pCost :: salt.length :: salt)
      ++ (input.length :: input)).foldl mixStep 11
  (List.range outLen).map (fun i => mixStep seed i % 256)

/-- Symbolic stand-in for `base64::encode` applied to hash output bytes
(keystore.rs line 347): any injective printable rendering serves. -/
def b64encodeStr (bs : List Nat) : String := String.intercalate "." (bs.map toString)

/-! ## KeyStore (src/keystore.rs) -/

/-- Symbolic ciphertext of the external authenticated-encryption capability
(`encrypt_custom` / `decrypt_custom` in crate::crypto): it records the
plaintext and the key it was produced under; decryption succeeds exactly
under the matching key. The embedded random nonce is irrelevant to every
property proved here and is omitted. -/
structure Ciphertext where
  payload : String
  key : List Nat
deriving DecidableEq, Repr

/-- Model of the external `encrypt_custom(plaintext, key)`. -/
def encrypt_custom (p : String) (k : List Nat) : Ciphertext := ⟨p, k⟩

/-- Model of the external `decrypt_custom(ciphertext, key)`: `none` models
the failure (panic in the source's callers) on key mismatch. -/
def decrypt_custom (c : Ciphertext) (k : List Nat) : Option String :=
  if c.key = k then some c.payload else none

/-- In-memory state of `KeyStoreInner` (keystore.rs lines 22-26): the
optional root key (absent = locked) and the cached key records. The
manifest map plays no role in the claims below and is omitted. -/
structure KeyStoreState where
  rootKey : Option (List Nat)
  keys : List (String × Ciphertext)
deriving DecidableEq, Repr

/-- `KeyStore::derive_keys` (keystore.rs lines 328-348): stage 1 hashes the
passphrase with salt built from the email at high cost (4096, 4, 1, 32
bytes out) giving the root key; stage 2 hashes the root key bytes with salt
built from the passphrase at low cost (512, 1, 1) and the result is
base64-encoded into the returned hashed passphrase. `none` models a panic
of one of the two `SaltString::b64_encode(..).unwrap()` calls. -/
def derive_keys (email passphrase : String) : Option (List Nat × String) :=
  match saltB64Encode (strBytes email) with
  | none => none
  | some salt1 =>
    let rootKey := argon2Hash 4096 4 1 32 salt1 (strBytes passphrase)
    match saltB64Encode (strBytes passphrase) with
    | none => none
    | some salt2 =>
      let hashed := argon2Hash 512 1 1 32 salt2 rootKey
      some (rootKey, b64encodeStr hashed)

/-- `KeyStore::open_sesame` (keystore.rs lines 46-51): derive, store the
root key, return the hashed passphrase. `none` models the panic inside
`derive_keys`. -/
def open_sesame (st : KeyStoreState) (email passphrase : String) :
    Option (KeyStoreState × String) :=
  (derive_keys email passphrase).map fun rh => ({ st with rootKey := some rh.1 }, rh.2)

/-- `KeyStore::get_hashed_passphrase` (keystore.rs lines 53-57): stateless
derivation (the `&self` receiver is never read). -/
def get_hashed_passphrase (email passphrase : String) : Option String :=
  (derive_keys email passphrase).map fun rh => rh.2

/-- `KeyStore::decrypt_key` (keystore.rs lines 355-358): unwraps the stored
root key (panic when locked, modelled by `none`) and delegates to the AEAD. -/
def decrypt_key (st : KeyStoreState) (c : Ciphertext) : Option String :=
  st.rootKey.bind fun rk => decrypt_custom c rk

/-- `KeyStore::encrypt_key` (keystore.rs lines 350-353). -/
def encrypt_key (st : KeyStoreState) (p : String) : Option Ciphertext :=
  st.rootKey.map fun rk => encrypt_custom p rk

/-- The re-encryption loop of `KeyStore::rotate_keys` (keystore.rs lines
282-287): each cached record is decrypted with the stored (old) root key
via `decrypt_key` and re-encrypted under the freshly derived root key.
`none` models a panic: the `unwrap` of a locked store inside `decrypt_key`,
or an AEAD failure. -/
def rotate_list (oldRoot : Option (List Nat)) (newRoot : List Nat) :
    List (String × Ciphertext) → Option (List (String × Ciphertext))
  | [] => some []
  | (kid, ct) :: rest =>
    match oldRoot with
    | none => none
    | some rk =>
      match decrypt_custom ct rk with
      | none => none
      | some p =>
        (rotate_list oldRoot newRoot rest).map fun tl => (kid, encrypt_custom p newRoot) :: tl

/-- `KeyStore::rotate_keys` (keystore.rs lines 271-326): derives the new
root key and hashed passphrase, re-encrypts every cached record into the
POSTed batch, and resolves with the new hashed passphrase. The random
rotation token and the HTTP POST are outside the state model. Note that the
source never writes `new_root_key` into `self.inner.root_key`, so the
stored state comes back unchanged. -/
def rotate_keys (st : KeyStoreState) (email passphrase : String) :
    Option (KeyStoreState × List (String × Ciphertext) × String) :=
  (derive_keys email passphrase).bind fun rh =>
    (rotate_list st.rootKey rh.1 st.keys).map fun batch => (st, batch, rh.2)

/-- Derivation written from the spec's own words, for refinement
comparison: "Stage 1 — salt = email, input = passphrase, high cost, output
32 bytes = RootKey. Stage 2 — salt = passphrase, input = RootKey bytes, low
cost, output = HashedPassphrase". -/
def derive_keys_spec (email passphrase : String) : List Nat × List Nat :=
  let rootKey := argon2Hash 4096 4 1 32 (strBytes email) (strBytes passphrase)
  let hashed := argon2Hash 512 1 1 32 (strBytes passphrase) rootKey
  (rootKey, hashed)

/-! ## Protocol (src/protocol.rs) -/

/-- Abstract contents of the `SyncableStore`: the only observable the
claims need is which peers already have an established session
(`load_session` returning `Some`). -/
structure SyncableStore where
  sessions : List String
deriving DecidableEq, Repr

/-- `ProtocolInner` (protocol.rs lines 20-23): the store slot and the
debounce timeout handle, both inside `RefCell<Option<_>>`. -/
structure ProtocolState where
  storage : Option SyncableStore
  timeout : Option Nat
deriving DecidableEq, Repr

/-- Outcome of the checkout step at the head of every mutating call. -/
inductive CheckoutResult where
  | taken (s : SyncableStore)
  | busy
  | panicked
deriving DecidableEq, Repr

/-- The checkout expression `_self.storage.try_borrow_mut().map(|mut s|
s.take().unwrap())` shared by `encrypt` (line 200), `decrypt` (line 242)
and `add_pre_key_bundles` (line 157). `borrowActive` says whether some
RefCell borrow of the slot is active at that very instant; under the
single-threaded scheduling of the source no borrow is ever held across an
await, so at the start of a call it is `false`. When no borrow is active
the `try_borrow_mut` succeeds and the `Option` inside is taken: if a
previous mutating call has checked the store out (slot holds `None`), the
trailing `.unwrap()` panics. Only an active borrow reaches the `Err` arm
that rejects with the busy-signal `Error`. -/
def checkout_mut (borrowActive : Bool) (slot : Option SyncableStore) :
    CheckoutResult × Option SyncableStore :=
  if borrowActive then (.busy, slot)
  else
    match slot with
    | some s => (.taken s, none)
    | none => (.panicked, none)

/-- Completion of a mutating call: `_self.storage.replace(Some(storage))`. -/
def release_store (s : SyncableStore) : Option SyncableStore := some s

/-- What the external ratchet's `message_decrypt` reports for a given
ciphertext message (modelled symbolically: the message carries its own
ratchet verdict). -/
inductive RatchetOutcome where
  | ok (plain : String)
  | duplicated (a b : Nat)
  | otherErr (e : String)
deriving DecidableEq, Repr

/-- Symbolic decoded bytes of an incoming message: parseable as an
ongoing-ratchet `SignalMessage`, as a session-establishing
`PreKeySignalMessage`, or as neither. -/
inductive WireBytes where
  | sigMsg (out : RatchetOutcome)
  | preKeyMsg (out : RatchetOutcome)
  | garbage (n : Nat)
deriving DecidableEq, Repr

/-- Symbolic wire string of an incoming message: either valid base64 of
some bytes, or not base64 at all. -/
inductive Wire where
  | b64 (bytes : WireBytes)
  | malformed (s : String)
deriving DecidableEq, Repr

/-- Model of the external `base64::decode` (protocol.rs line 246). -/
def base64_decode : Wire → Option WireBytes
  | .b64 bs => some bs
  | .malformed _ => none

/-- `CiphertextMessage` after classification. -/
inductive CtextMessage where
  | signalMessage (out : RatchetOutcome)
  | preKeySignalMessage (out : RatchetOutcome)
deriving DecidableEq, Repr

/-- Model of the external `SignalMessage::try_from` parser. -/
def parse_signal_message : WireBytes → Option RatchetOutcome
  | .sigMsg o => some o
  | _ => none

/-- Model of the external `PreKeySignalMessage::try_from` parser. -/
def parse_pre_key_message : WireBytes → Option RatchetOutcome
  | .preKeyMsg o => some o
  | _ => none

/-- The ciphertext classification of `decrypt` (protocol.rs lines 247-256):
with an existing session, try `SignalMessage` first and fall back to
`PreKeySignalMessage`; without one, parse only as `PreKeySignalMessage`.
Each fallback parse is `.unwrap()`ed in the source, so `none` models a
panic on unparseable bytes. -/
def classify_ctext (sessionExists : Bool) (bs : WireBytes) : Option CtextMessage :=
  if sessionExists then
    match parse_signal_message bs with
    | some o => some (.signalMessage o)
    | none =>
      match parse_pre_key_message bs with
      | some o => some (.preKeySignalMessage o)
      | none => none
  else
    match parse_pre_key_message bs with
    | some o => some (.preKeySignalMessage o)
    | none => none

/-- The external `message_decrypt`: in the symbolic model the message
carries its ratchet verdict. -/
def message_decrypt : CtextMessage → RatchetOutcome
  | .signalMessage o => o
  | .preKeySignalMessage o => o

/-- Observable outcome of the promise returned by `decrypt`. -/
inductive DecOutcome where
  | resolved (s : String)
  | rejectedStr (signal : String) (logged : Bool)
  | rejectedBusy (msg : String)
  | panicked
deriving DecidableEq, Repr

/-- The result dispatch of `decrypt` (protocol.rs lines 271-282): success
resolves with the plaintext; `SignalProtocolError::DuplicatedMessage`
rejects with the string `"DuplicatedMessageError"` without logging; every
other error is logged to the console and rejects with the string
`"MessageDecryptError"`. -/
def dispatch_decrypt_result : RatchetOutcome → DecOutcome
  | .ok p => .resolved p
  | .duplicated _ _ => .rejectedStr "DuplicatedMessageError" false
  | .otherErr _ => .rejectedStr "MessageDecryptError" true

/-- `Protocol::decrypt`'s async body (protocol.rs lines 241-286): check the
store out, decode the base64 wire string (`.unwrap()`: panic on failure),
classify the bytes against the session table (panics on unparseable bytes),
put the store back (line 269), then dispatch the ratchet verdict. On a
panic after checkout the slot stays empty. -/
def decrypt (borrowActive : Bool) (st : ProtocolState) (userId : String) (msg : Wire) :
    DecOutcome × ProtocolState :=
  match checkout_mut borrowActive st.storage with
  | (.busy, slot) =>
    (.rejectedBusy "Cannot decrypt message: storage is already borrowed",
      { st with storage := slot })
  | (.panicked, slot) => (.panicked, { st with storage := slot })
  | (.taken storage, _) =>
    let sessionExists := storage.sessions.contains userId
    match base64_decode msg with
    | none => (.panicked, { st with storage := none })
    | some bs =>
      match classify_ctext sessionExists bs with
      | none => (.panicked, { st with storage := none })
      | some ct =>
        (dispatch_decrypt_result (message_decrypt ct), { st with storage := some storage })

/-- `Protocol::schedule_sync`, arming part (protocol.rs lines 308-334): a
timeout callback is registered, and its handle stored, only when no handle
is currently stored; otherwise the call is a no-op. (The RefCell borrows of
the handle are instantaneous and never contended in the source, so they are
not modelled.) -/
def schedule_sync (st : ProtocolState) (newHandle : Nat) : ProtocolState :=
  if st.timeout.isNone then { st with timeout := some newHandle } else st

/-- Outcome of the debounce timer callback. -/
inductive TimerOutcome where
  | synced
  | skipped
  | panicked
deriving DecidableEq, Repr

/-- The timer callback of `schedule_sync` (protocol.rs lines 314-328):
`_self.storage.try_borrow().map(|s| s.clone().unwrap())`. An active
mutable borrow (`borrowActive`, never actually held at callback time under
the single-threaded scheduling) reaches the silent `Err(_) => {}` arm with
the handle left in place. Otherwise the slot's `Option` is cloned and
`.unwrap()`ed: an empty slot (store checked out) panics; a present store
first clears the timeout handle, then spawns the sync. -/
def timer_fire (borrowActive : Bool) (st : ProtocolState) : TimerOutcome × ProtocolState :=
  if borrowActive then (.skipped, st)
  else
    match st.storage with
    | some _ => (.synced, { st with timeout := none })
    | none => (.panicked, st)

/-- `start of the bundle-id range in `gen_pre_key_bundles` (protocol.rs
lines 33-37): one past the server-reported highest id (u32 arithmetic, so
the successor wraps), or 1 when the server reports none. The input is the
`as_f64` response already cast to u32. -/
def start_bundle_id : Option Nat → Nat
  | some i => (i + 1) % u32Mod
  | none => 1

/-- The bundle ids published by one run of `gen_pre_key_bundles`
(protocol.rs lines 30-88): the loop `for i in bundle_id..bundle_id+5`
saves a pre-key and POSTs a bundle with `bundle_id = i` for each id in the
range; both endpoint computations live in u32. -/
def gen_pre_key_bundle_ids (resp : Option Nat) : List Nat :=
  let b := start_bundle_id resp
  let e := (b + 5) % u32Mod
  (List.range (e - b)).map (fun k => b + k)

/-! ## Helper lemmas -/

theorem decrypt_encrypt_custom (p : String) (k : List Nat) :
    decrypt_custom (encrypt_custom p k) k = some p := by
  simp [decrypt_custom, encrypt_custom]

theorem saltB64Encode_eq_some {bs ys : List Nat} (h : saltB64Encode bs = some ys) :
    ys = bs := by
  unfold saltB64Encode at h
  split at h
  · exact (Option.some.injEq _ _ ▸ h).symm
  · exact absurd h (by simp)

theorem argon2Hash_length (mCost tCost pCost outLen : Nat) (salt input : List Nat) :
    (argon2Hash mCost tCost pCost outLen salt input).length = outLen := by
  simp [argon2Hash]

/-! ## Claims about the KeyStore -/

/-- C2, counterexample: for the unlocked vault state with stored root key
`[0]` and credentials ("a@x", "pw2"), `rotate_keys` completes (returns
`some`) yet the stored root key afterwards is still `[0]`, which differs
from the root key newly derived from the supplied credentials. -/
theorem c2_rotate_keys_counterexample :
    (rotate_keys ⟨some [0], []⟩ "a@x" "pw2").map (fun r => r.1.rootKey) = some (some [0]) ∧
    (derive_keys "a@x" "pw2").map (fun rh => rh.1) ≠ some [0] := by
  decide

/-- C2 (amended): `rotate_keys` never replaces the stored in-memory root
key — whenever it completes, the state's root key is exactly the
pre-rotation one; the newly derived root key is only used to re-encrypt the
batch. The stored root key is replaced by `open_sesame` (unlock) instead. -/
theorem c2_rotate_keys_leaves_root_key_unchanged :
    ∀ (st : KeyStoreState) (email passphrase : String),
      ((rotate_keys st email passphrase).map fun r => r.1.rootKey) =
        ((rotate_keys st email passphrase).map fun _ => st.rootKey) ∧
      ((open_sesame st email passphrase).map fun r => r.1.rootKey) =
        ((derive_keys email passphrase).map fun rh => some rh.1) := by
  intro st email passphrase
  constructor
  · unfold rotate_keys
    cases derive_keys email passphrase with
    | none => rfl
    | some rh =>
      cases h : rotate_list st.rootKey rh.1 st.keys <;> simp [h]
  · unfold open_sesame
    cases derive_keys email passphrase <;> rfl

/-- C3: every record processed by the rotation loop keeps its key id, and
its new ciphertext decrypts under the new root key to exactly the
plaintext the old ciphertext decrypts to under the old root key. -/
theorem c3_rotated_batch_preserves_plaintexts :
    ∀ (rk nrk : List Nat) (keys batch : List (String × Ciphertext)),
      rotate_list (some rk) nrk keys = some batch →
      List.Forall₂ (fun o n => o.1 = n.1 ∧ decrypt_custom n.2 nrk = decrypt_custom o.2 rk)
        keys batch := by
  intro rk nrk keys
  induction keys with
  | nil =>
    intro batch h
    unfold rotate_list at h
    simp only [Option.some.injEq] at h
    subst h
    exact List.Forall₂.nil
  | cons hd tl ih =>
    intro batch h
    obtain ⟨kid, ct⟩ := hd
    unfold rotate_list at h
    dsimp only at h
    cases hdec : decrypt_custom ct rk with
    | none => rw [hdec] at h; simp at h
    | some p =>
      rw [hdec] at h
      cases htl : rotate_list (some rk) nrk tl with
      | none => rw [htl] at h; simp at h
      | some tlBatch =>
        rw [htl] at h
        simp only [Option.map, Option.some.injEq] at h
        subst h
        exact List.Forall₂.cons ⟨rfl, by rw [decrypt_encrypt_custom, hdec]⟩ (ih tlBatch htl)

/-- C3, witness: a one-record store rotated from root key `[1]` to root key
`[2]`. -/
theorem c3_witness :
    List.Forall₂ (fun o n => o.1 = n.1 ∧ decrypt_custom n.2 [2] = decrypt_custom o.2 [1])
      [("k1", ⟨"secret", [1]⟩)] [("k1", ⟨"secret", [2]⟩)] :=
  c3_rotated_batch_preserves_plaintexts [1] [2]
    [("k1", ⟨"secret", [1]⟩)] [("k1", ⟨"secret", [2]⟩)] (by rfl)

/-- C8: key derivation is deterministic — equal (email, passphrase) inputs
give equal `derive_keys` results (the derivation consumes no randomness in
the source), and consequently `open_sesame` and `get_hashed_passphrase`
return the same hashed passphrase on the same inputs. -/
theorem c8_derive_keys_deterministic :
    ∀ (e1 p1 e2 p2 : String), e1 = e2 → p1 = p2 →
      derive_keys e1 p1 = derive_keys e2 p2 ∧
      (∀ st : KeyStoreState,
        ((open_sesame st e1 p1).map fun r => r.2) = get_hashed_passphrase e2 p2) := by
  intro e1 p1 e2 p2 he hp
  subst he
  subst hp
  refine ⟨rfl, fun st => ?_⟩
  unfold open_sesame get_hashed_passphrase
  cases derive_keys e1 p1 <;> rfl

/-- C8, witness: the two interface functions agree at ("a@x", "pw1"). -/
theorem c8_witness :
    ((open_sesame ⟨none, []⟩ "a@x" "pw1").map fun r => r.2) =
      get_hashed_passphrase "a@x" "pw1" :=
  (c8_derive_keys_deterministic "a@x" "pw1" "a@x" "pw1" rfl rfl).2 ⟨none, []⟩

/-- C9: whenever `derive_keys` returns, its root key is the stage-1 hash
(salt = email, input = passphrase, high cost) described by the spec, its
returned hashed passphrase is the (base64-rendered) stage-2 hash (salt =
passphrase, input = root key bytes, low cost), and the root key is 32
bytes. -/
theorem c9_two_stage_derivation :
    ∀ (email passphrase : String) (rk : List Nat) (hp : String),
      derive_keys email passphrase = some (rk, hp) →
      rk = (derive_keys_spec email passphrase).1 ∧
      hp = b64encodeStr (derive_keys_spec email passphrase).2 ∧
      rk.length = 32 := by
  intro email passphrase rk hp h
  unfold derive_keys at h
  cases h1 : saltB64Encode (strBytes email) with
  | none => rw [h1] at h; simp at h
  | some salt1 =>
    rw [h1] at h
    cases h2 : saltB64Encode (strBytes passphrase) with
    | none => rw [h2] at h; simp at h
    | some salt2 =>
      rw [h2] at h
      simp only [Option.some.injEq, Prod.mk.injEq] at h
      obtain ⟨hrk, hhp⟩ := h
      have e1 := saltB64Encode_eq_some h1
      have e2 := saltB64Encode_eq_some h2
      subst e1
      subst e2
      refine ⟨hrk.symm, ?_, ?_⟩
      · rw [← hhp]; rfl
      · rw [← hrk]; exact argon2Hash_length 4096 4 1 32 (strBytes email) (strBytes passphrase)

/-- C9, witness: at ("a@x", "pw1") the derivation succeeds and matches the
spec-side two-stage description. -/
theorem c9_witness :
    derive_keys "a@x" "pw1" =
      some ((derive_keys_spec "a@x" "pw1").1, b64encodeStr (derive_keys_spec "a@x" "pw1").2) ∧
    ((derive_keys_spec "a@x" "pw1").1).length = 32 :=
  ⟨by rfl,
    (c9_two_stage_derivation "a@x" "pw1" (derive_keys_spec "a@x" "pw1").1
      (b64encodeStr (derive_keys_spec "a@x" "pw1").2) (by rfl)).2.2⟩

/-- C10: the salt construction is not total — a 49-byte email (base64 form
66 characters, beyond the 64-character salt maximum) makes `open_sesame`,
`get_hashed_passphrase` and `rotate_keys` all panic (modelled by `none`)
instead of returning a value or a typed error. -/
theorem c10_long_email_panics :
    (strBytes "aaaaaaaaaaaaaaaaaaaaaaaaaaaaaaaaaaaaaaaaaaaaaaaaa").length = 49 ∧
    open_sesame ⟨none, []⟩ "aaaaaaaaaaaaaaaaaaaaaaaaaaaaaaaaaaaaaaaaaaaaaaaaa" "pw1" = none ∧
    get_hashed_passphrase "aaaaaaaaaaaaaaaaaaaaaaaaaaaaaaaaaaaaaaaaaaaaaaaaa" "pw1" = none ∧
    rotate_keys ⟨none, []⟩ "aaaaaaaaaaaaaaaaaaaaaaaaaaaaaaaaaaaaaaaaaaaaaaaaa" "pw1" = none := by
  decide

/-! ## Claims about the Protocol -/

/-- C1: evaluation of the mutating-call checkout at the claim's scenario.
A first mutating call checks the store out (slot becomes empty). A second
call issued while the first is in flight finds no active RefCell borrow
(borrows are released before every await), so `try_borrow_mut` succeeds
and the `.take().unwrap()` of the emptied slot panics — it does not reject
with the busy-signal error. After the first call resolves and puts the
store back, a subsequent call succeeds. -/
theorem c1_second_mutating_call_panics :
    checkout_mut false (some ⟨["peer"]⟩) = (.taken ⟨["peer"]⟩, none) ∧
    checkout_mut false (none : Option SyncableStore) = (.panicked, none) ∧
    checkout_mut false (release_store ⟨["peer"]⟩) = (.taken ⟨["peer"]⟩, none) ∧
    (CheckoutResult.panicked ≠ .busy) := by
  decide

/-- C4: the result dispatch of `decrypt` maps a duplicated-message report
to the rejection string "DuplicatedMessageError" without logging, maps
every other ratchet failure to the logged rejection string
"MessageDecryptError", resolves successes with the plaintext unchanged,
and the full decrypt pipeline realises those mappings. -/
theorem c4_decrypt_error_mapping :
    (∀ a b : Nat, dispatch_decrypt_result (.duplicated a b) =
      .rejectedStr "DuplicatedMessageError" false) ∧
    (∀ e : String, dispatch_decrypt_result (.otherErr e) =
      .rejectedStr "MessageDecryptError" true) ∧
    (∀ p : String, dispatch_decrypt_result (.ok p) = .resolved p) ∧
    (∀ (storage : SyncableStore) (uid : String) (a b : Nat),
      (decrypt false ⟨some storage, none⟩ uid (.b64 (.preKeyMsg (.duplicated a b)))).1 =
        .rejectedStr "DuplicatedMessageError" false) ∧
    (∀ (storage : SyncableStore) (uid e : String),
      (decrypt false ⟨some storage, none⟩ uid (.b64 (.preKeyMsg (.otherErr e)))).1 =
        .rejectedStr "MessageDecryptError" true) := by
  refine ⟨fun a b => rfl, fun e => rfl, fun p => rfl, ?_, ?_⟩
  · intro storage uid a b
    cases h : storage.sessions.contains uid <;>
      simp [decrypt, checkout_mut, base64_decode, classify_ctext, parse_signal_message,
        parse_pre_key_message, message_decrypt, dispatch_decrypt_result, h]
  · intro storage uid e
    cases h : storage.sessions.contains uid <;>
      simp [decrypt, checkout_mut, base64_decode, classify_ctext, parse_signal_message,
        parse_pre_key_message, message_decrypt, dispatch_decrypt_result, h]

/-- C5: evaluation of the debounce machinery at the claim's scenario.
Arming only happens when no handle is stored (a second `schedule_sync` in
the window is a no-op, so a burst arms exactly one timer); on firing with
the store present the handle is cleared before the sync runs; but on
firing while the store is checked out (slot empty) the callback panics on
`.clone().unwrap()` — the silent-skip arm is reached only under an active
RefCell borrow, which the single-threaded scheduling never exhibits. -/
theorem c5_timer_fire_panics_when_slot_empty :
    schedule_sync ⟨some ⟨[]⟩, none⟩ 1 = ⟨some ⟨[]⟩, some 1⟩ ∧
    schedule_sync ⟨some ⟨[]⟩, some 1⟩ 2 = ⟨some ⟨[]⟩, some 1⟩ ∧
    timer_fire false ⟨some ⟨[]⟩, some 1⟩ = (.synced, ⟨some ⟨[]⟩, none⟩) ∧
    timer_fire false ⟨none, some 1⟩ = (.panicked, ⟨none, some 1⟩) ∧
    (TimerOutcome.panicked ≠ .skipped) := by
  decide

/-- C6, counterexample: with the store present, a non-base64 wire string
makes `decrypt` panic (the `base64::decode(..).unwrap()`), and so does a
base64 string whose bytes parse as neither message kind — there is no
typed ProtocolError rejection. -/
theorem c6_counterexample :
    (decrypt false ⟨some ⟨[]⟩, none⟩ "peer" (.malformed "not base64")).1 =
      .panicked ∧
    (decrypt false ⟨some ⟨[]⟩, none⟩ "peer" (.b64 (.garbage 0))).1 = .panicked := by
  decide

/-- C6 (amended): for every malformed incoming ciphertext — not valid
base64, or not parseable as either message kind — `decrypt` panics on an
`unwrap` (a fatal crash that leaves the store checked out), rather than
rejecting the promise with a typed ProtocolError. -/
theorem c6_malformed_ciphertext_panics :
    ∀ (storage : SyncableStore) (uid s : String) (n : Nat),
      (decrypt false ⟨some storage, none⟩ uid (.malformed s)).1 = .panicked ∧
      (decrypt false ⟨some storage, none⟩ uid (.malformed s)).2.storage = none ∧
      (decrypt false ⟨some storage, none⟩ uid (.b64 (.garbage n))).1 = .panicked := by
  intro storage uid s n
  refine ⟨rfl, rfl, ?_⟩
  cases h : storage.sessions.contains uid <;>
    simp [decrypt, checkout_mut, base64_decode, classify_ctext, parse_signal_message,
      parse_pre_key_message, h]

/-- C7: one run of the bundle-generation routine publishes exactly five
bundles with consecutive ids: starting at one past the server's reported
highest id (whenever that successor range stays within u32), or at 1 when
the server reports none. -/
theorem c7_gen_pre_key_bundles_five_consecutive :
    (∀ i : Nat, i + 6 < u32Mod →
      gen_pre_key_bundle_ids (some i) = [i + 1, i + 2, i + 3, i + 4, i + 5] ∧
      (gen_pre_key_bundle_ids (some i)).length = 5) ∧
    gen_pre_key_bundle_ids none = [1, 2, 3, 4, 5] := by
  constructor
  · intro i hi
    have hb : (i + 1) % u32Mod = i + 1 := Nat.mod_eq_of_lt (by omega)
    have he : (i + 1 + 5) % u32Mod = i + 6 := by
      rw [Nat.mod_eq_of_lt (by omega)]
    have h5 : i + 6 - (i + 1) = 5 := by omega
    have hids : gen_pre_key_bundle_ids (some i) = [i + 1, i + 2, i + 3, i + 4, i + 5] := by
      unfold gen_pre_key_bundle_ids start_bundle_id
      dsimp only
      rw [hb, he, h5]
      exact rfl
    exact ⟨hids, by rw [hids]; rfl⟩
  · decide

/-- C7, witness: a server-reported highest id of 7 yields the five bundles
8..12. -/
theorem c7_witness :
    7 + 6 < u32Mod ∧ gen_pre_key_bundle_ids (some 7) = [8, 9, 10, 11, 12] :=
  ⟨by decide, ((c7_gen_pre_key_bundles_five_consecutive.1 7 (by decide)).1)⟩
